import Mathlib

/-!
Verification of the MindSpore parameter-server node/messaging layer
(`mindspore/ccsrc/ps/core/node.h`): the request tracker, request-id
allocation, send APIs and lifecycle flags of `mindspore::ps::core::Node`.

The repository excerpt contains the class header `node.h` (constructor,
member declarations, method signatures); the method bodies live in
`node.cc`, which is not part of the excerpt.  Definitions taken directly
from `node.h` are marked as such; the missing bodies are modelled from the
specification (sections 4.2-4.5) and carry a doc comment starting with
`Modelled from the spec:`.

Machine integers: the request-id counter is a `std::atomic_uint64_t`, so
its increment is taken modulo `2^64`; the `uint32` response counters are
modelled as `Nat` (they only ever move between `0` and the expected count,
which the invariant theorems make precise, so 32-bit overflow cannot
occur for them).
-/

namespace MindsporePS

/-- `NodeState` enum (referenced by `node.h`; the constructor uses
`NodeState::NODE_STARTING`). Remaining constructors follow the spec's
lifecycle `STARTING → READY → FINISHING → FINISHED`. -/
inductive NodeState where
  | NODE_STARTING
  | NODE_READY
  | NODE_FINISHING
  | NODE_FINISHED
  deriving DecidableEq, Repr

/-- `ClusterState` enum (referenced by `node.h`; the constructor uses
`ClusterState::ClUSTER_STARTING`, spelling as in the source). -/
inductive ClusterState where
  | ClUSTER_STARTING
  | CLUSTER_READY
  | CLUSTER_FINISHING
  | CLUSTER_FINISHED
  deriving DecidableEq, Repr

/-- `2^64`, the modulus of the `std::atomic_uint64_t` request-id counter. -/
def UINT64_MOD : Nat := 2 ^ 64

/-- One entry of `message_tracker_`:
`(request_id, (expected responses, actual responses))`, exactly the
key/value shape of
`std::unordered_map<uint64_t, std::pair<uint32_t, uint32_t>>` in `node.h`. -/
abbrev TrackerEntry := Nat × Nat × Nat

/-- The mutable state of a `Node` object: the data members declared in
`node.h` (mutexes and condition variables carry no data and are replaced
by the explicit sequential semantics below; `node_info_` and `config_`
are never touched by the tracked operations and are omitted). -/
structure Node where
  is_ready_ : Bool
  is_finish_ : Bool
  is_already_stopped_ : Bool
  is_already_finished_ : Bool
  next_request_id_ : Nat
  message_tracker_ : List TrackerEntry
  current_node_state_ : NodeState
  current_cluster_state_ : ClusterState
  deriving DecidableEq, Repr

/-- The `Node()` constructor, directly from `node.h` lines 48-55:
`is_ready_(false), is_finish_(false), is_already_stopped_(true),
is_already_finished_(false), next_request_id_(0),
current_node_state_(NodeState::NODE_STARTING),
current_cluster_state_(ClusterState::ClUSTER_STARTING)`;
the `message_tracker_` map is default-constructed empty. -/
def Node.init : Node where
  is_ready_ := false
  is_finish_ := false
  is_already_stopped_ := true
  is_already_finished_ := false
  next_request_id_ := 0
  message_tracker_ := []
  current_node_state_ := NodeState.NODE_STARTING
  current_cluster_state_ := ClusterState.ClUSTER_STARTING

/-- Lookup of a request id in the tracker map: the value
`(expected, actual)` of the first entry with the given key (a fresh
insertion is consed to the front, so a fresh entry shadows any stale one,
matching `unordered_map` assignment which overwrites). -/
def trackerLookup : List TrackerEntry → Nat → Option (Nat × Nat)
  | [], _ => none
  | (k, e, a) :: rest, r => if k = r then some (e, a) else trackerLookup rest r

/-- Modelled from the spec: the map update performed by
`Node::NotifyMessageArrival` (body in `node.cc`, not in the excerpt):
"looks up `meta.request_id`; increments actual count"; per the spec's
invariant "actual ≤ expected at all times" and "clamped or ignored", an
already-satisfied entry is left unchanged; "Unknown request ids are
silently ignored". -/
def trackerNotify : List TrackerEntry → Nat → List TrackerEntry
  | [], _ => []
  | (k, e, a) :: rest, r =>
    if k = r then (k, e, if a < e then a + 1 else a) :: rest
    else (k, e, a) :: trackerNotify rest r

/-- Modelled from the spec: `Node::AddMessageTrack(expected_response)`
(body in `node.cc`, not in the excerpt): "allocates a fresh monotonically
increasing id, inserts `(request_id -> (expected, 0))`, returns id under a
lock"; the id comes from the `std::atomic_uint64_t` counter
`next_request_id_` declared in `node.h`, whose increment wraps at `2^64`. -/
def Node.AddMessageTrack (n : Node) (expected_response : Nat) : Nat × Node :=
  let request_id := n.next_request_id_
  (request_id,
    { n with
      next_request_id_ := (n.next_request_id_ + 1) % UINT64_MOD
      message_tracker_ := (request_id, expected_response, 0) :: n.message_tracker_ })

/-- Modelled from the spec: `Node::CheckMessageTrack(request_id)`
(body in `node.cc`, not in the excerpt): "true iff `actual == expected`
for that id (non-blocking point check, lock-protected)"; "entries for
unknown request ids are rejected", so an unknown id yields `false`. -/
def Node.CheckMessageTrack (n : Node) (request_id : Nat) : Bool :=
  match trackerLookup n.message_tracker_ request_id with
  | some (e, a) => a = e
  | none => false

/-- Modelled from the spec: `Node::NotifyMessageArrival(meta)`
(body in `node.cc`, not in the excerpt): looks up `meta.request_id` and
increments its actual count (see `trackerNotify`); the broadcast on
`message_tracker_cond_` is represented by the waiter re-checking the
state each step in `Node.Wait`. -/
def Node.NotifyMessageArrival (n : Node) (request_id : Nat) : Node :=
  { n with message_tracker_ := trackerNotify n.message_tracker_ request_id }

/-- One step of the discrete-time environment while a thread is blocked:
at each step at most one incoming reply (with its request id) is
delivered by a transport thread and processed by `NotifyMessageArrival`. -/
def stepArrival (n : Node) : Option Nat → Node
  | some id => n.NotifyMessageArrival id
  | none => n

/-- Deliver a whole list of optional arrivals in order. -/
def applyArrivals (n : Node) (l : List (Option Nat)) : Node :=
  l.foldl stepArrival n

/-- `CheckMessageTrack` after the first `k` scheduled arrivals have been
delivered: the truth value the blocked waiter observes at instant `k`. -/
def checkAfter (n : Node) (r : Nat) (arrivals : List (Option Nat)) (k : Nat) : Bool :=
  (applyArrivals n (arrivals.take k)).CheckMessageTrack r

/-- Modelled from the spec: `Node::Wait(request_id, timeout)`
(body in `node.cc`, not in the excerpt): "blocks the calling thread on the
condition variable until `CheckMessageTrack` is true or the timeout
elapses; returns false on timeout", without removing the tracker entry.
Discrete-time semantics: `timeout` counts time steps; during step `i` the
`i`-th scheduled arrival (if any) is delivered, and the predicate is
re-checked.  Returns `(result, elapsed steps, final node state)`. -/
def Node.Wait (n : Node) (r : Nat) (arrivals : List (Option Nat)) (timeout : Nat) :
    Bool × Nat × Node :=
  if n.CheckMessageTrack r then (true, 0, n)
  else
    match timeout with
    | 0 => (false, 0, n)
    | t + 1 =>
      let res := Node.Wait (stepArrival n (arrivals.headD none)) r arrivals.tail t
      (res.1, res.2.1 + 1, res.2.2)

/-- Result of one asynchronous dispatch: the allocated request id, the
transport layer's success/failure (visible only to internal callers, not
part of the public async return value), and the updated node state. -/
structure AsyncResult where
  request_id : Nat
  send_ok : Bool
  node : Node
  deriving DecidableEq, Repr

/-- Modelled from the spec: the body of `Node::SendMessageAsync`
(in `node.cc`, not in the excerpt): "allocates a request id via
`next_request_id_` (atomic increment)", registers the tracker entry for
the envelope's expected-response count, stamps the id into the envelope
and hands the framed buffer to the transport, whose boolean outcome
`transport_ok` is recorded but does not influence the id or the node
state ("increments the global request counter even if the underlying
transport send ultimately fails"). -/
def Node.SendMessageAsyncImpl (n : Node) (expected : Nat) (transport_ok : Bool) :
    AsyncResult :=
  let alloc := n.AddMessageTrack expected
  { request_id := alloc.1, send_ok := transport_ok, node := alloc.2 }

/-- Modelled from the spec: public `Node::SendMessageAsync` "returns the
id immediately regardless of transport outcome". -/
def Node.SendMessageAsync (n : Node) (expected : Nat) (transport_ok : Bool) :
    Nat × Node :=
  let res := n.SendMessageAsyncImpl expected transport_ok
  (res.request_id, res.node)

/-- Result of a synchronous send: success flag, blocked time steps, and
final node state. -/
structure SyncResult where
  ok : Bool
  elapsed : Nat
  node : Node
  deriving DecidableEq, Repr

/-- Modelled from the spec: `Node::SendMessageSync(client, meta, payload,
timeout)` (body in `node.cc`, not in the excerpt): "registers a tracker
with `expected_responses = 1`, dispatches via `SendMessageAsync`, then
`Wait`s. Returns false if the underlying async send fails OR if the wait
times out. No retry is performed internally."  A failed transport send
means the response can never arrive, so the wait is skipped (`elapsed`
0): "returns false without blocking for the full timeout". -/
def Node.SendMessageSync (n : Node) (transport_ok : Bool)
    (arrivals : List (Option Nat)) (timeout : Nat) : SyncResult :=
  let res := n.SendMessageAsyncImpl 1 transport_ok
  if res.send_ok then
    let w := res.node.Wait res.request_id arrivals timeout
    { ok := w.1, elapsed := w.2.1, node := w.2.2 }
  else
    { ok := false, elapsed := 0, node := res.node }

/-- A timed blocking wait on a condition that becomes true at a given
step (`none`: never): blocks until the condition holds or `timeout` steps
elapse; returns the success flag and the elapsed steps.  Common model of
the condition-variable waits behind `Start`/`WaitForStart` and `Finish`. -/
def timedWait (becomesTrueAt : Option Nat) (timeout : Nat) : Bool × Nat :=
  match becomesTrueAt with
  | some k => if k ≤ timeout then (true, k) else (false, timeout)
  | none => (false, timeout)

/-- Modelled from the spec: `Node::Stop()` (pure virtual in `node.h`,
implemented by the role subclasses, not in the excerpt): "forces
immediate teardown without graceful finish semantics, setting
`is_already_stopped_`"; "calling `Stop()` twice is a no-op the second
time" and an idempotent no-op is "not an error", so the guarded second
call still returns `true`. -/
def Node.Stop (n : Node) : Bool × Node :=
  if n.is_already_stopped_ then (true, n)
  else (true, { n with is_already_stopped_ := true })

/-- Modelled from the spec: `Node::Finish(timeout)` (pure virtual in
`node.h`, not in the excerpt): transitions to FINISHING on the call and
to FINISHED once all shutdown acknowledgements are in (`acksAt`: the step
at which they complete, `none` if never), waiting at most `timeout`
steps; guarded by `is_already_finished_`, the second call is an
idempotent no-op ("not an error"), returning `true` immediately. -/
def Node.Finish (n : Node) (acksAt : Option Nat) (timeout : Nat) : Bool × Nat × Node :=
  if n.is_already_finished_ then (true, 0, n)
  else
    let w := timedWait acksAt timeout
    (w.1, w.2,
      { n with
        is_already_finished_ := true
        is_finish_ := true
        current_node_state_ :=
          if w.1 then NodeState.NODE_FINISHED else NodeState.NODE_FINISHING })

/-- Modelled from the spec: `Node::Start(timeout)` (pure virtual in
`node.h`, not in the excerpt): blocks in `WaitForStart` until the cluster
is ready (`readyAt`: the step at which it becomes ready) or `timeout`
elapses; on success the node becomes READY and leaves the
constructed-as-stopped state. -/
def Node.Start (n : Node) (readyAt : Option Nat) (timeout : Nat) : Bool × Nat × Node :=
  let w := timedWait readyAt timeout
  if w.1 then
    (true, w.2,
      { n with
        is_ready_ := true
        is_already_stopped_ := false
        current_node_state_ := NodeState.NODE_READY })
  else (false, w.2, n)

/-- Iterate `NotifyMessageArrival` for a fixed request id `k` times. -/
def notifyIter (n : Node) (r : Nat) : Nat → Node
  | 0 => n
  | k + 1 => notifyIter (n.NotifyMessageArrival r) r k

/-- An abstract step of the tracker's client-visible interface, for
stating invariants over arbitrary operation sequences. -/
inductive TrackerOp where
  | add (expected : Nat)
  | notify (request_id : Nat)
  deriving DecidableEq, Repr

/-- Apply one tracker operation to the node state. -/
def applyOp (n : Node) : TrackerOp → Node
  | .add e => (n.AddMessageTrack e).2
  | .notify r => n.NotifyMessageArrival r

/-- Apply a sequence of tracker operations in order. -/
def applyOps (n : Node) (ops : List TrackerOp) : Node :=
  ops.foldl applyOp n

/-- The tracker invariant: every entry satisfies `actual ≤ expected`. -/
def TrackerInv (l : List TrackerEntry) : Prop :=
  ∀ p ∈ l, p.2.2 ≤ p.2.1

instance (l : List TrackerEntry) : Decidable (TrackerInv l) :=
  List.decidableBAll _ l

/-- The ids handed out by `k` successive allocations (`AddMessageTrack` /
`SendMessageAsync`) starting from state `n`; the expected-response
argument does not influence the allocated id. -/
def allocTrace (n : Node) : Nat → List Nat
  | 0 => []
  | k + 1 =>
    let alloc := n.AddMessageTrack 0
    alloc.1 :: allocTrace alloc.2 k

/-! ### Tracker map lemmas -/

/-- `trackerNotify` on the looked-up id applies the clamped increment to
the entry's value and nothing else. -/
theorem trackerLookup_notify_self (l : List TrackerEntry) (r : Nat) :
    trackerLookup (trackerNotify l r) r =
      (trackerLookup l r).map (fun p => (p.1, if p.2 < p.1 then p.2 + 1 else p.2)) := by
  induction l with
  | nil => rfl
  | cons hd tl ih =>
    obtain ⟨k, e, a⟩ := hd
    by_cases hk : k = r
    · subst hk
      simp [trackerNotify, trackerLookup]
    · simp [trackerNotify, trackerLookup, hk, ih]

/-- `trackerNotify` for one id leaves the lookup of any other id alone. -/
theorem trackerLookup_notify_other (l : List TrackerEntry) (r r' : Nat) (h : r' ≠ r) :
    trackerLookup (trackerNotify l r') r = trackerLookup l r := by
  induction l with
  | nil => rfl
  | cons hd tl ih =>
    obtain ⟨k, e, a⟩ := hd
    by_cases hk : k = r'
    · subst hk
      have hkr : k ≠ r := fun hh => h (hh ▸ rfl)
      simp [trackerNotify, trackerLookup, hkr]
    · simp [trackerNotify, trackerLookup, hk, ih]

/-- `trackerNotify` never inserts or removes an entry. -/
theorem trackerLookup_notify_isSome (l : List TrackerEntry) (r' r : Nat) :
    (trackerLookup (trackerNotify l r') r).isSome = (trackerLookup l r).isSome := by
  by_cases h : r' = r
  · subst h
    rw [trackerLookup_notify_self]
    cases trackerLookup l r' <;> rfl
  · rw [trackerLookup_notify_other l r r' h]

/-- A notification for an id absent from the map is a no-op on the map. -/
theorem trackerNotify_of_none (r : Nat) :
    ∀ l : List TrackerEntry, trackerLookup l r = none → trackerNotify l r = l := by
  intro l
  induction l with
  | nil => intro _; rfl
  | cons hd tl ih =>
    obtain ⟨k, e, a⟩ := hd
    intro h
    by_cases hk : k = r
    · subst hk
      simp [trackerLookup] at h
    · simp [trackerLookup, hk] at h
      simp [trackerNotify, hk, ih h]

theorem notify_message_tracker (n : Node) (r : Nat) :
    (n.NotifyMessageArrival r).message_tracker_ = trackerNotify n.message_tracker_ r := rfl

theorem notify_next_id (n : Node) (r : Nat) :
    (n.NotifyMessageArrival r).next_request_id_ = n.next_request_id_ := rfl

theorem stepArrival_next_id (n : Node) (a : Option Nat) :
    (stepArrival n a).next_request_id_ = n.next_request_id_ := by
  cases a <;> rfl

theorem stepArrival_lookup_isSome (n : Node) (a : Option Nat) (r : Nat) :
    (trackerLookup (stepArrival n a).message_tracker_ r).isSome
      = (trackerLookup n.message_tracker_ r).isSome := by
  cases a with
  | none => rfl
  | some id => exact trackerLookup_notify_isSome n.message_tracker_ id r

/-! ### Iterated notifications on one id -/

/-- Iterating `NotifyMessageArrival` `k` times on the id at the head of
the tracker drives its actual count to `min expected (actual + k)`. -/
theorem notifyIter_head (r : Nat) :
    ∀ (k : Nat) (n : Node) (e a : Nat) (rest : List TrackerEntry),
      n.message_tracker_ = (r, e, a) :: rest → a ≤ e →
      (notifyIter n r k).message_tracker_ = (r, e, min e (a + k)) :: rest := by
  intro k
  induction k with
  | zero =>
    intro n e a rest hm ha
    simpa [notifyIter, Nat.min_eq_right ha] using hm
  | succ k ih =>
    intro n e a rest hm ha
    have hstep : (n.NotifyMessageArrival r).message_tracker_
        = (r, e, if a < e then a + 1 else a) :: rest := by
      simp [Node.NotifyMessageArrival, hm, trackerNotify]
    have hgoal : notifyIter n r (k + 1) = notifyIter (n.NotifyMessageArrival r) r k := rfl
    by_cases hlt : a < e
    · have hrec := ih (n.NotifyMessageArrival r) e (a + 1) rest
        (by rw [hstep, if_pos hlt]) hlt
      rw [hgoal, hrec]
      have : min e (a + 1 + k) = min e (a + (k + 1)) := by omega
      rw [this]
    · have hrec := ih (n.NotifyMessageArrival r) e a rest
        (by rw [hstep, if_neg hlt]) ha
      rw [hgoal, hrec]
      have : min e (a + k) = min e (a + (k + 1)) := by omega
      rw [this]

/-! ### C1: count-gated readiness of a tracked request -/

/-- C1: for a request id returned by `AddMessageTrack(exp)`,
`CheckMessageTrack` is false until exactly `exp` matching
`NotifyMessageArrival` calls have occurred and is permanently true
afterwards; the inserted entry is `(request_id -> (exp, 0))`, and in any
state `CheckMessageTrack` is true iff the entry's actual count equals its
expected count. -/
theorem addMessageTrack_check_counts (n : Node) (exp k r0 e0 a0 : Nat)
    (hlook : trackerLookup n.message_tracker_ r0 = some (e0, a0)) :
    trackerLookup (n.AddMessageTrack exp).2.message_tracker_ (n.AddMessageTrack exp).1
      = some (exp, 0) ∧
    (notifyIter (n.AddMessageTrack exp).2 (n.AddMessageTrack exp).1 k).CheckMessageTrack
      (n.AddMessageTrack exp).1 = decide (exp ≤ k) ∧
    (n.CheckMessageTrack r0 = true ↔ a0 = e0) := by
  refine ⟨?_, ?_, ?_⟩
  · simp [Node.AddMessageTrack, trackerLookup]
  · have hm : (n.AddMessageTrack exp).2.message_tracker_
        = ((n.AddMessageTrack exp).1, exp, 0) :: n.message_tracker_ := rfl
    have h2 := notifyIter_head (n.AddMessageTrack exp).1 k (n.AddMessageTrack exp).2
      exp 0 n.message_tracker_ hm (Nat.zero_le _)
    have h3 : trackerLookup
        (notifyIter (n.AddMessageTrack exp).2 (n.AddMessageTrack exp).1 k).message_tracker_
        (n.AddMessageTrack exp).1 = some (exp, min exp (0 + k)) := by
      rw [h2]
      simp [trackerLookup]
    simp only [Node.CheckMessageTrack, h3]
    rw [decide_eq_decide]
    omega
  · simp [Node.CheckMessageTrack, hlook]

/-- Witness for C1 at a concrete run: `AddMessageTrack(3)` from a fresh
node, two notifications leave the check false, three make it true. -/
theorem addMessageTrack_check_counts_witness :
    trackerLookup ((Node.init.AddMessageTrack 5).2.AddMessageTrack 3).2.message_tracker_ 0
        = some (5, 0) ∧
    (trackerLookup ((Node.init.AddMessageTrack 5).2.AddMessageTrack 3).2.message_tracker_
        (((Node.init.AddMessageTrack 5).2.AddMessageTrack 3).1) = some (3, 0) ∧
      (notifyIter ((Node.init.AddMessageTrack 5).2.AddMessageTrack 3).2
          (((Node.init.AddMessageTrack 5).2.AddMessageTrack 3).1) 2).CheckMessageTrack
          (((Node.init.AddMessageTrack 5).2.AddMessageTrack 3).1) = decide (3 ≤ 2) ∧
      (((Node.init.AddMessageTrack 5).2).CheckMessageTrack 0 = true ↔ (0 : Nat) = 5)) :=
  ⟨by decide, addMessageTrack_check_counts (Node.init.AddMessageTrack 5).2 3 2 0 5 0 (by decide)⟩

/-! ### C2: the actual count never exceeds the expected count -/

/-- `trackerNotify` preserves the tracker invariant. -/
theorem trackerNotify_inv (r : Nat) :
    ∀ l : List TrackerEntry, TrackerInv l → TrackerInv (trackerNotify l r) := by
  intro l
  induction l with
  | nil => intro h; exact h
  | cons hd tl ih =>
    obtain ⟨k, e, a⟩ := hd
    intro h p hp
    have hhd : a ≤ e := h (k, e, a) (by simp)
    have htl : TrackerInv tl := fun q hq => h q (by simp [hq])
    simp only [trackerNotify] at hp
    by_cases hk : k = r
    · rw [if_pos hk] at hp
      rcases List.mem_cons.mp hp with rfl | h2
      · dsimp only
        split <;> omega
      · exact htl p h2
    · rw [if_neg hk] at hp
      rcases List.mem_cons.mp hp with rfl | h2
      · exact hhd
      · exact ih htl p h2

/-- Every single tracker operation preserves the invariant. -/
theorem applyOp_inv (n : Node) (op : TrackerOp) (h : TrackerInv n.message_tracker_) :
    TrackerInv (applyOp n op).message_tracker_ := by
  cases op with
  | add e =>
    intro p hp
    simp only [applyOp, Node.AddMessageTrack] at hp
    rcases List.mem_cons.mp hp with rfl | h2
    · exact Nat.zero_le _
    · exact h p h2
  | notify r => exact trackerNotify_inv r n.message_tracker_ h

/-- `applyOps` preserves the tracker invariant. -/
theorem applyOps_inv (ops : List TrackerOp) :
    ∀ n : Node, TrackerInv n.message_tracker_ → TrackerInv (applyOps n ops).message_tracker_ := by
  induction ops with
  | nil => intro n hinv; exact hinv
  | cons op rest ih =>
    intro n hinv
    have h1 : applyOps n (op :: rest) = applyOps (applyOp n op) rest := rfl
    rw [h1]
    exact ih (applyOp n op) (applyOp_inv n op hinv)

/-- C2: under any sequence of `AddMessageTrack` / `NotifyMessageArrival`
operations the invariant `actual ≤ expected` holds for every tracker
entry, and a stray notification for an already-satisfied request id
leaves its entry unchanged (clamped). -/
theorem tracker_actual_le_expected (n : Node) (ops : List TrackerOp) (r0 e0 : Nat)
    (hinv : TrackerInv n.message_tracker_)
    (hsat : trackerLookup n.message_tracker_ r0 = some (e0, e0)) :
    TrackerInv (applyOps n ops).message_tracker_ ∧
    trackerLookup (n.NotifyMessageArrival r0).message_tracker_ r0 = some (e0, e0) := by
  constructor
  · exact applyOps_inv ops n hinv
  · rw [notify_message_tracker, trackerLookup_notify_self]
    simp [hsat]

/-- Witness for C2: a satisfied entry `(0 -> (3, 3))`, a stray fourth
notification, and further operations keep `actual ≤ expected`. -/
theorem tracker_actual_le_expected_witness :
    TrackerInv (notifyIter (Node.init.AddMessageTrack 3).2 0 3).message_tracker_ ∧
    trackerLookup (notifyIter (Node.init.AddMessageTrack 3).2 0 3).message_tracker_ 0
      = some (3, 3) ∧
    (TrackerInv (applyOps (notifyIter (Node.init.AddMessageTrack 3).2 0 3)
        [TrackerOp.notify 0, TrackerOp.add 2, TrackerOp.notify 1, TrackerOp.notify 7]).message_tracker_ ∧
      trackerLookup ((notifyIter (Node.init.AddMessageTrack 3).2 0 3).NotifyMessageArrival
        0).message_tracker_ 0 = some (3, 3)) :=
  ⟨by decide, by decide,
    tracker_actual_le_expected (notifyIter (Node.init.AddMessageTrack 3).2 0 3)
      [TrackerOp.notify 0, TrackerOp.add 2, TrackerOp.notify 1, TrackerOp.notify 7]
      0 3 (by decide) (by decide)⟩

/-! ### C3: notifications for unknown request ids are ignored -/

/-- C3: `NotifyMessageArrival` with a request id absent from the tracker
leaves the whole node state (in particular every registered entry's
counters) unchanged: the unknown id is silently ignored. -/
theorem notifyMessageArrival_unknown_id (n : Node) (r : Nat)
    (h : trackerLookup n.message_tracker_ r = none) :
    n.NotifyMessageArrival r = n := by
  simp [Node.NotifyMessageArrival, trackerNotify_of_none r n.message_tracker_ h]

/-- Witness for C3: id 99 is unknown to a node tracking ids 0 and 1. -/
theorem notifyMessageArrival_unknown_id_witness :
    trackerLookup ((Node.init.AddMessageTrack 2).2.AddMessageTrack 1).2.message_tracker_ 99
        = none ∧
    ((Node.init.AddMessageTrack 2).2.AddMessageTrack 1).2.NotifyMessageArrival 99
        = ((Node.init.AddMessageTrack 2).2.AddMessageTrack 1).2 :=
  ⟨by decide,
    notifyMessageArrival_unknown_id ((Node.init.AddMessageTrack 2).2.AddMessageTrack 1).2 99
      (by decide)⟩

/-! ### Unfolding equations and step lemmas for `Node.Wait` -/

theorem wait_of_check (n : Node) (r : Nat) (arrivals : List (Option Nat)) (t : Nat)
    (h : n.CheckMessageTrack r = true) : n.Wait r arrivals t = (true, 0, n) := by
  cases t <;> simp [Node.Wait, h]

theorem wait_zero (n : Node) (r : Nat) (arrivals : List (Option Nat)) :
    n.Wait r arrivals 0 = (n.CheckMessageTrack r, 0, n) := by
  by_cases h : n.CheckMessageTrack r <;> simp [Node.Wait, h]

theorem wait_succ (n : Node) (r : Nat) (arrivals : List (Option Nat)) (t : Nat)
    (h : n.CheckMessageTrack r = false) :
    n.Wait r arrivals (t + 1) =
      ((Node.Wait (stepArrival n (arrivals.headD none)) r arrivals.tail t).1,
       (Node.Wait (stepArrival n (arrivals.headD none)) r arrivals.tail t).2.1 + 1,
       (Node.Wait (stepArrival n (arrivals.headD none)) r arrivals.tail t).2.2) := by
  simp [Node.Wait, h]

theorem checkAfter_zero (n : Node) (r : Nat) (arrivals : List (Option Nat)) :
    checkAfter n r arrivals 0 = n.CheckMessageTrack r := rfl

theorem checkAfter_succ (n : Node) (r : Nat) (arrivals : List (Option Nat)) (k : Nat) :
    checkAfter n r arrivals (k + 1)
      = checkAfter (stepArrival n (arrivals.headD none)) r arrivals.tail k := by
  cases arrivals with
  | nil => simp [checkAfter, applyArrivals, stepArrival]
  | cons a as => simp [checkAfter, applyArrivals, List.take_succ_cons]

/-- The blocked wait succeeds exactly when the point check becomes true
at some instant within the timeout. -/
theorem wait_fst_iff (r : Nat) :
    ∀ (t : Nat) (n : Node) (arrivals : List (Option Nat)),
      (n.Wait r arrivals t).1 = true
        ↔ ∃ k, k ≤ t ∧ checkAfter n r arrivals k = true := by
  intro t
  induction t with
  | zero =>
    intro n arrivals
    rw [wait_zero]
    constructor
    · intro h
      exact ⟨0, Nat.le_refl 0, h⟩
    · rintro ⟨k, hk, hc⟩
      have hk0 : k = 0 := Nat.le_zero.mp hk
      subst hk0
      exact hc
  | succ t ih =>
    intro n arrivals
    by_cases h : n.CheckMessageTrack r
    · rw [wait_of_check n r arrivals (t + 1) h]
      simp only [true_iff]
      exact ⟨0, Nat.zero_le _, h⟩
    · have h' : n.CheckMessageTrack r = false := by simpa using h
      rw [wait_succ n r arrivals t h']
      dsimp only
      rw [ih]
      constructor
      · rintro ⟨k, hk, hc⟩
        refine ⟨k + 1, Nat.succ_le_succ hk, ?_⟩
        rw [checkAfter_succ]
        exact hc
      · rintro ⟨k, hk, hc⟩
        cases k with
        | zero =>
          rw [checkAfter_zero, h'] at hc
          cases hc
        | succ k =>
          rw [checkAfter_succ] at hc
          exact ⟨k, Nat.le_of_succ_le_succ hk, hc⟩

/-- A wait never blocks longer than its timeout. -/
theorem wait_elapsed_le (r : Nat) :
    ∀ (t : Nat) (n : Node) (arrivals : List (Option Nat)),
      (n.Wait r arrivals t).2.1 ≤ t := by
  intro t
  induction t with
  | zero =>
    intro n arrivals
    rw [wait_zero]
  | succ t ih =>
    intro n arrivals
    by_cases h : n.CheckMessageTrack r
    · rw [wait_of_check n r arrivals (t + 1) h]
      exact Nat.zero_le _
    · have h' : n.CheckMessageTrack r = false := by simpa using h
      rw [wait_succ n r arrivals t h']
      exact Nat.succ_le_succ (ih _ _)

/-- A failed wait blocks for the whole timeout. -/
theorem wait_elapsed_timeout (r : Nat) :
    ∀ (t : Nat) (n : Node) (arrivals : List (Option Nat)),
      (n.Wait r arrivals t).1 = false → (n.Wait r arrivals t).2.1 = t := by
  intro t
  induction t with
  | zero =>
    intro n arrivals _
    rw [wait_zero]
  | succ t ih =>
    intro n arrivals hf
    by_cases h : n.CheckMessageTrack r
    · rw [wait_of_check n r arrivals (t + 1) h] at hf
      cases hf
    · have h' : n.CheckMessageTrack r = false := by simpa using h
      rw [wait_succ n r arrivals t h'] at hf ⊢
      dsimp only at hf ⊢
      rw [ih _ _ hf]

/-- A wait leaves the set of tracked request ids intact. -/
theorem wait_lookup_isSome (r r' : Nat) :
    ∀ (t : Nat) (n : Node) (arrivals : List (Option Nat)),
      (trackerLookup (n.Wait r arrivals t).2.2.message_tracker_ r').isSome
        = (trackerLookup n.message_tracker_ r').isSome := by
  intro t
  induction t with
  | zero =>
    intro n arrivals
    rw [wait_zero]
  | succ t ih =>
    intro n arrivals
    by_cases h : n.CheckMessageTrack r
    · rw [wait_of_check n r arrivals (t + 1) h]
    · have h' : n.CheckMessageTrack r = false := by simpa using h
      rw [wait_succ n r arrivals t h']
      dsimp only
      rw [ih, stepArrival_lookup_isSome]

/-- A wait does not touch the request-id counter. -/
theorem wait_next_id (r : Nat) :
    ∀ (t : Nat) (n : Node) (arrivals : List (Option Nat)),
      (n.Wait r arrivals t).2.2.next_request_id_ = n.next_request_id_ := by
  intro t
  induction t with
  | zero =>
    intro n arrivals
    rw [wait_zero]
  | succ t ih =>
    intro n arrivals
    by_cases h : n.CheckMessageTrack r
    · rw [wait_of_check n r arrivals (t + 1) h]
    · have h' : n.CheckMessageTrack r = false := by simpa using h
      rw [wait_succ n r arrivals t h']
      dsimp only
      rw [ih, stepArrival_next_id]

/-! ### C4: Wait succeeds iff the check turns true within the timeout -/

/-- C4: `Wait(r, t)` returns true iff `CheckMessageTrack r` becomes true
at an instant within the timeout, returns false after blocking the full
timeout otherwise, never removes the tracker entry, and a late reply
after a timed-out wait still increments the entry's counters. -/
theorem wait_iff_check_before_timeout (n : Node) (r r' : Nat)
    (arrivals : List (Option Nat)) (t e a : Nat) :
    ((n.Wait r arrivals t).1 = true ↔ ∃ k, k ≤ t ∧ checkAfter n r arrivals k = true) ∧
    ((n.Wait r arrivals t).1 = false → (n.Wait r arrivals t).2.1 = t) ∧
    ((trackerLookup (n.Wait r arrivals t).2.2.message_tracker_ r').isSome
        = (trackerLookup n.message_tracker_ r').isSome) ∧
    (trackerLookup (n.Wait r arrivals t).2.2.message_tracker_ r' = some (e, a) → a < e →
      trackerLookup ((n.Wait r arrivals t).2.2.NotifyMessageArrival r').message_tracker_ r'
        = some (e, a + 1)) := by
  refine ⟨wait_fst_iff r t n arrivals, wait_elapsed_timeout r t n arrivals,
    wait_lookup_isSome r r' t n arrivals, ?_⟩
  intro hlook hlt
  rw [notify_message_tracker, trackerLookup_notify_self, hlook]
  simp [hlt]

/-- Witness for C4: waiting for two replies with only one scheduled
times out after the full three steps, keeps the entry, and a late reply
still bumps it. -/
theorem wait_iff_check_before_timeout_witness :
    (((Node.init.AddMessageTrack 2).2.Wait 0 [some 0] 3).1 = false) ∧
    (((Node.init.AddMessageTrack 2).2.Wait 0 [some 0] 3).2.1 = 3) ∧
    (trackerLookup ((Node.init.AddMessageTrack 2).2.Wait 0 [some 0] 3).2.2.message_tracker_ 0
        = some (2, 1)) ∧
    ((1 : Nat) < 2) ∧
    (trackerLookup (((Node.init.AddMessageTrack 2).2.Wait 0 [some 0]
        3).2.2.NotifyMessageArrival 0).message_tracker_ 0 = some (2, 2)) :=
  ⟨by decide,
    (wait_iff_check_before_timeout (Node.init.AddMessageTrack 2).2 0 0 [some 0] 3 2 1).2.1
      (by decide),
    by decide, by decide,
    (wait_iff_check_before_timeout (Node.init.AddMessageTrack 2).2 0 0 [some 0] 3 2 1).2.2.2
      (by decide) (by decide)⟩

/-! ### C5: synchronous send = register, dispatch, wait, no retry -/

/-- C5: `SendMessageSync` registers a tracker entry with
`expected_responses = 1` under the allocated id, its result is the
conjunction of the transport outcome and the wait outcome (false if the
async send fails or the wait times out), a failing transport returns
false immediately without blocking, and exactly one request id is
consumed — no internal retry. -/
theorem sendMessageSync_spec (n : Node) (transport_ok : Bool)
    (arrivals : List (Option Nat)) (t : Nat) :
    trackerLookup (n.AddMessageTrack 1).2.message_tracker_ n.next_request_id_ = some (1, 0) ∧
    (n.SendMessageSync transport_ok arrivals t).ok
      = (transport_ok && ((n.AddMessageTrack 1).2.Wait n.next_request_id_ arrivals t).1) ∧
    n.SendMessageSync false arrivals t
      = { ok := false, elapsed := 0, node := (n.AddMessageTrack 1).2 } ∧
    (n.SendMessageSync false arrivals t).elapsed = 0 ∧
    (n.SendMessageSync transport_ok arrivals t).node.next_request_id_
      = (n.next_request_id_ + 1) % UINT64_MOD := by
  refine ⟨?_, ?_, ?_, ?_, ?_⟩
  · simp [Node.AddMessageTrack, trackerLookup]
  · cases transport_ok with
    | false => rfl
    | true => rfl
  · rfl
  · rfl
  · cases transport_ok with
    | false => rfl
    | true =>
      show ((n.AddMessageTrack 1).2.Wait n.next_request_id_ arrivals t).2.2.next_request_id_ = _
      rw [wait_next_id]
      rfl

/-! ### C6: allocated request ids are pairwise distinct and increasing -/

/-- As long as the 64-bit counter does not wrap, a run of allocations
yields the consecutive ids starting at the current counter value. -/
theorem allocTrace_eq_range (k : Nat) :
    ∀ n : Node, n.next_request_id_ + k ≤ UINT64_MOD →
      allocTrace n k = List.range' n.next_request_id_ k := by
  induction k with
  | zero => intro n _; rfl
  | succ k ih =>
    intro n h
    have h1 : allocTrace n (k + 1)
        = n.next_request_id_ :: allocTrace (n.AddMessageTrack 0).2 k := rfl
    rw [h1, List.range'_succ]
    congr 1
    cases k with
    | zero => rfl
    | succ k' =>
      have hlt : n.next_request_id_ + 1 < UINT64_MOD := by omega
      have hnext : (n.AddMessageTrack 0).2.next_request_id_ = n.next_request_id_ + 1 := by
        simp [Node.AddMessageTrack, UINT64_MOD] at *
        omega
      rw [ih (n.AddMessageTrack 0).2 (by rw [hnext]; omega), hnext]

/-- C6: within a run that cannot wrap the `uint64` counter, the request
ids produced by successive allocations (`AddMessageTrack` /
`SendMessageAsync`) are strictly increasing, hence pairwise distinct;
every allocation returns the current counter value — independent of the
expected-response argument — and bumps the counter by one. -/
theorem request_ids_strictly_increasing (n : Node) (k e : Nat)
    (h : n.next_request_id_ + k ≤ UINT64_MOD) :
    (allocTrace n k).Pairwise (· < ·) ∧
    (n.AddMessageTrack e).1 = n.next_request_id_ ∧
    (n.AddMessageTrack e).2.next_request_id_ = (n.next_request_id_ + 1) % UINT64_MOD := by
  refine ⟨?_, rfl, rfl⟩
  rw [allocTrace_eq_range k n h]
  exact List.pairwise_lt_range' n.next_request_id_ k

/-- Witness for C6: four allocations from a fresh node yield the
strictly increasing ids 0, 1, 2, 3. -/
theorem request_ids_strictly_increasing_witness :
    Node.init.next_request_id_ + 4 ≤ UINT64_MOD ∧
    ((allocTrace Node.init 4).Pairwise (· < ·) ∧
      (Node.init.AddMessageTrack 7).1 = Node.init.next_request_id_ ∧
      (Node.init.AddMessageTrack 7).2.next_request_id_
        = (Node.init.next_request_id_ + 1) % UINT64_MOD) :=
  ⟨by decide, request_ids_strictly_increasing Node.init 4 7 (by decide)⟩

/-! ### C7: asynchronous send is insensitive to the transport outcome -/

/-- C7: `SendMessageAsync` returns the allocated request id no matter
whether the transport send succeeds — the whole public result is
identical for a succeeding and a failing transport — it increments the
global request-id counter either way, and the tracker entry it
registered is still present in the resulting state (the send path does
not reclaim it). -/
theorem sendMessageAsync_frame (n : Node) (e : Nat) (b b' : Bool) :
    (n.SendMessageAsync e b).1 = n.next_request_id_ ∧
    n.SendMessageAsync e b = n.SendMessageAsync e b' ∧
    (n.SendMessageAsync e b).2.next_request_id_ = (n.next_request_id_ + 1) % UINT64_MOD ∧
    trackerLookup (n.SendMessageAsync e b).2.message_tracker_ n.next_request_id_
      = some (e, 0) := by
  refine ⟨rfl, rfl, rfl, ?_⟩
  simp [Node.SendMessageAsync, Node.SendMessageAsyncImpl, Node.AddMessageTrack, trackerLookup]

/-! ### C8: teardown is idempotent -/

/-- C8: a second `Stop()` returns success and leaves the state exactly
where the first call left it, and a second `Finish()` — with any
acknowledgement schedule and timeout — is an immediate successful no-op;
both second calls are cut off by the `is_already_stopped_` /
`is_already_finished_` guards. -/
theorem stop_finish_idempotent (n : Node) (acksAt acksAt' : Option Nat) (t t' : Nat) :
    (n.Stop.2).Stop = (true, n.Stop.2) ∧
    ((n.Finish acksAt t).2.2).Finish acksAt' t' = (true, 0, (n.Finish acksAt t).2.2) := by
  constructor
  · by_cases h : n.is_already_stopped_ <;> simp [Node.Stop, h]
  · by_cases h : n.is_already_finished_ <;> simp [Node.Finish, h]

/-! ### C9: every blocking call is bounded by its timeout -/

/-- C9: the blocking operations of the public API — `Wait`,
`SendMessageSync`, `Start` and `Finish`, each of which takes an explicit
timeout parameter — return within their timeout budget (elapsed steps
never exceed it), and on expiry without the awaited condition they
return false having blocked the full budget. -/
theorem public_api_bounded_blocking (n : Node) (r : Nat) (b : Bool)
    (arrivals : List (Option Nat)) (t : Nat) (readyAt acksAt : Option Nat) :
    (n.Wait r arrivals t).2.1 ≤ t ∧
    ((n.Wait r arrivals t).1 = false → (n.Wait r arrivals t).2.1 = t) ∧
    (n.SendMessageSync b arrivals t).elapsed ≤ t ∧
    (n.Start readyAt t).2.1 ≤ t ∧
    ((n.Start readyAt t).1 = false → (n.Start readyAt t).2.1 = t) ∧
    (n.Finish acksAt t).2.1 ≤ t := by
  have htw : ∀ o : Option Nat, (timedWait o t).2 ≤ t := by
    intro o
    cases o with
    | none => exact Nat.le_refl t
    | some k =>
      simp only [timedWait]
      split
      · omega
      · exact Nat.le_refl t
  refine ⟨wait_elapsed_le r t n arrivals, wait_elapsed_timeout r t n arrivals, ?_, ?_, ?_, ?_⟩
  · cases b with
    | false => exact Nat.zero_le t
    | true => exact wait_elapsed_le _ t _ arrivals
  · simp only [Node.Start]
    split
    · exact htw readyAt
    · exact htw readyAt
  · intro hf
    have htw2 : ∀ o : Option Nat, (timedWait o t).1 = false → (timedWait o t).2 = t := by
      intro o ho
      cases o with
      | none => rfl
      | some k =>
        simp only [timedWait] at ho ⊢
        split at ho
        · cases ho
        · rename_i hcond
          rw [if_neg hcond]
    by_cases hw : (timedWait readyAt t).1
    · exfalso
      simp [Node.Start, hw] at hf
    · simp only [Node.Start, Bool.not_eq_true] at hw ⊢
      rw [hw]
      simp only [Bool.false_eq_true, if_false]
      exact htw2 readyAt hw
  · by_cases h : n.is_already_finished_
    · simp [Node.Finish, h]
    · simp [Node.Finish, h, htw acksAt]

/-- Witness for C9: with no scheduled arrivals and a never-ready
cluster, `Wait` and `Start` both expire after exactly their two-step
budget. -/
theorem public_api_bounded_blocking_witness :
    ((Node.init.AddMessageTrack 1).2.Wait 0 [] 2).2.1 ≤ 2 ∧
    (((Node.init.AddMessageTrack 1).2.Wait 0 [] 2).1 = false) ∧
    (((Node.init.AddMessageTrack 1).2.Wait 0 [] 2).2.1 = 2) ∧
    ((Node.init.AddMessageTrack 1).2.SendMessageSync true [] 2).elapsed ≤ 2 ∧
    ((Node.init.AddMessageTrack 1).2.Start none 2).2.1 ≤ 2 ∧
    (((Node.init.AddMessageTrack 1).2.Start none 2).1 = false) ∧
    (((Node.init.AddMessageTrack 1).2.Start none 2).2.1 = 2) ∧
    ((Node.init.AddMessageTrack 1).2.Finish none 2).2.1 ≤ 2 :=
  ⟨(public_api_bounded_blocking (Node.init.AddMessageTrack 1).2 0 true [] 2 none none).1,
    by decide,
    (public_api_bounded_blocking (Node.init.AddMessageTrack 1).2 0 true [] 2 none none).2.1
      (by decide),
    (public_api_bounded_blocking (Node.init.AddMessageTrack 1).2 0 true [] 2 none
      none).2.2.1,
    (public_api_bounded_blocking (Node.init.AddMessageTrack 1).2 0 true [] 2 none
      none).2.2.2.1,
    by decide,
    (public_api_bounded_blocking (Node.init.AddMessageTrack 1).2 0 true [] 2 none
      none).2.2.2.2.1 (by decide),
    (public_api_bounded_blocking (Node.init.AddMessageTrack 1).2 0 true [] 2 none
      none).2.2.2.2.2⟩

/-! ### C10: the constructed node's initial state -/

/-- C10: the `Node()` constructor initializes `is_already_stopped_` to
true, `is_already_finished_` to false, `next_request_id_` to 0, the node
state to `NODE_STARTING`, the cluster state to `ClUSTER_STARTING`, and
`is_ready_` / `is_finish_` to false; because the stopped flag starts
true, a `Stop()` issued before any `Start()` hits the idempotence guard
and is a no-op. -/
theorem node_ctor_initial_state :
    Node.init.is_already_stopped_ = true ∧
    Node.init.is_already_finished_ = false ∧
    Node.init.next_request_id_ = 0 ∧
    Node.init.current_node_state_ = NodeState.NODE_STARTING ∧
    Node.init.current_cluster_state_ = ClusterState.ClUSTER_STARTING ∧
    Node.init.is_ready_ = false ∧
    Node.init.is_finish_ = false ∧
    Node.init.Stop = (true, Node.init) := by
  refine ⟨rfl, rfl, rfl, rfl, rfl, rfl, rfl, rfl⟩

end MindsporePS
